import Mathlib

/-!
Shallow embedding of `src/gallery-widget.js`, the Tattoo Gallery Widget.

The widget fetches a JSON list of image descriptors and renders a grid with
a lightbox viewer.  The embedding models:
  * the parsed JSON response body (`JsonVal`) and the fetch logic
    (`fetchImages`, lines 69-83 of the source);
  * the gallery/lightbox state machine (`WidgetState`, with `openLightbox`,
    `closeLightbox`, `prevImage`, `nextImage`, `updateLightboxImage`);
  * grid rendering (`renderGallery`, `createImageItem`) and the click
    handler wiring (`activateItem`);
  * swipe handling (`handleSwipe`) and the gallery constructor / `init`
    branching (`constructGallery`, `init`).
-/

/-- An image descriptor `{id, name}` as returned by the listing API. -/
structure Image where
  id : String
  name : String
deriving Repr, DecidableEq

/-- The compiled-in API url, `CONFIG.apiUrl` (line 16 of the source). -/
def CONFIG_apiUrl : String :=
  "https://tattoo-gallery-api.garrett-tattooagent.workers.dev/gallery"

/-- `CONFIG.apiUrl.replace('/gallery', '')`: the base url of the image
proxy endpoint (lines 124 and 303 of the source). -/
def imageProxyBase : String := String.replace CONFIG_apiUrl ("/gallery") ("")

/-- A JSON value, modelling the result of `await response.json()`. -/
inductive JsonVal where
  | jnull
  | jbool (b : Bool)
  | jnum (n : Int)
  | jstr (s : String)
  | jarr (items : List JsonVal)
  | jobj (fields : List (String × JsonVal))
deriving Repr

/-- JS property access `v.key` on a parsed JSON value.  Reading a property
of `null` throws a TypeError (`Except.error ()`); on an object it yields
the field when present and `undefined` (`none`) when absent; on any other
primitive or array it yields `undefined`. -/
def JsonVal.getField : JsonVal → String → Except Unit (Option JsonVal)
  | .jnull, _ => Except.error ()
  | .jobj fields, key => Except.ok (fields.lookup key)
  | _, _ => Except.ok none

/-- JS truthiness of a possibly-`undefined` JSON value. -/
def jsTruthy : Option JsonVal → Bool
  | none => false
  | some .jnull => false
  | some (.jbool b) => b
  | some (.jnum n) => decide (n ≠ 0)
  | some (.jstr s) => decide (s ≠ "")
  | some (.jarr _) => true
  | some (.jobj _) => true

/-- JS `v || fallback`: the value itself when truthy, the fallback
otherwise (used for `data.message || 'Unknown error'`, line 79). -/
def jsOr (v : Option JsonVal) (fallback : JsonVal) : JsonVal :=
  if jsTruthy v then v.getD fallback else fallback

/-- An HTTP response as seen by `fetchImages`: a status code and the parsed
JSON body. -/
structure HttpResponse where
  status : Nat
  body : JsonVal
deriving Repr

/-- `response.ok` of the Fetch API: status in the inclusive range 200-299. -/
def HttpResponse.ok (r : HttpResponse) : Bool :=
  200 ≤ r.status && r.status ≤ 299

/-- The failure shapes of `fetchImages`:
`transportError status` models `throw new Error("API error: " + status)`
(line 73); `applicationError m` models
`throw new Error(data.message || 'Unknown error')` (line 79), carrying the
value passed to the `Error` constructor; `typeError` models the TypeError
raised by the property access `data.error` (line 78) when the parsed body
is `null`. -/
inductive FetchError where
  | transportError (status : Nat)
  | applicationError (message : JsonVal)
  | typeError
deriving Repr

/-- `fetchImages` (lines 69-83): rejects non-ok responses with a transport
error; then evaluates `data.error`, which throws a TypeError when the body
is `null`; a truthy `error` value is rejected with an application error
carrying `data.message || 'Unknown error'`; otherwise the parsed body is
returned unchanged. -/
def fetchImages (r : HttpResponse) : Except FetchError JsonVal :=
  if ¬ r.ok then
    Except.error (FetchError.transportError r.status)
  else
    match r.body.getField ("error") with
    | Except.error _ => Except.error FetchError.typeError
    | Except.ok errField =>
      if jsTruthy errField then
        match r.body.getField ("message") with
        | Except.error _ => Except.error FetchError.typeError
        | Except.ok msgField =>
          Except.error (FetchError.applicationError
            (jsOr msgField (JsonVal.jstr ("Unknown error"))))
      else
        Except.ok r.body

/-- JSON encoding of one image descriptor, `{id: ..., name: ...}`. -/
def Image.toJson (img : Image) : JsonVal :=
  JsonVal.jobj [("id", JsonVal.jstr img.id), ("name", JsonVal.jstr img.name)]

/-- JSON encoding of an ordered image list, the in-contract success body. -/
def encodeImageList (imgs : List Image) : JsonVal :=
  JsonVal.jarr (imgs.map Image.toJson)

/-- The mutable per-instance gallery fields `this.images` and
`this.currentImageIndex` (lines 34-35). -/
structure GalleryState where
  images : List Image
  currentImageIndex : Nat
deriving Repr, DecidableEq

/-- The document-level state the lightbox code touches: whether a
`.tg-lightbox` element is in the document, whether the keydown listener is
attached, and whether `document.body.style.overflow` is `'hidden'`. -/
structure DomState where
  lightboxPresent : Bool
  keydownListenerAttached : Bool
  bodyOverflowHidden : Bool
deriving Repr, DecidableEq

/-- Combined widget state: gallery instance fields plus document state. -/
structure WidgetState where
  gallery : GalleryState
  dom : DomState
deriving Repr, DecidableEq

/-- `openLightbox(index)` (lines 178-248): sets `currentImageIndex` to the
given index, appends the lightbox element, hides page scroll, and attaches
the keydown listener. -/
def openLightbox (s : WidgetState) (index : Nat) : WidgetState :=
  { gallery := { s.gallery with currentImageIndex := index },
    dom := { lightboxPresent := true,
             keydownListenerAttached := true,
             bodyOverflowHidden := true } }

/-- What `updateLightboxImage` writes into the lightbox DOM. -/
structure LightboxRender where
  imgSrc : String
  imgAlt : String
  caption : String
  counter : String
  prevDisplay : String
  nextDisplay : String
deriving Repr, DecidableEq

/-- Outcome of a call to `updateLightboxImage`: early return when no
lightbox element exists, a TypeError when `this.images[this.currentImageIndex]`
is `undefined` (reading `.id` of `undefined` throws), or the rendered
content. -/
inductive UpdateResult where
  | noLightbox
  | typeError
  | rendered (r : LightboxRender)
deriving Repr, DecidableEq

/-- `updateLightboxImage` (lines 290-327): returns immediately when
`document.querySelector('.tg-lightbox')` finds nothing; otherwise renders
image, caption, counter, and toggles the nav buttons' `display` between
`'none'` and `'flex'` at the boundaries. -/
def updateLightboxImage (s : WidgetState) : UpdateResult :=
  if ¬ s.dom.lightboxPresent then
    UpdateResult.noLightbox
  else
    match s.gallery.images.get? s.gallery.currentImageIndex with
    | none => UpdateResult.typeError
    | some image =>
      UpdateResult.rendered
        { imgSrc := imageProxyBase ++ "/image/" ++ image.id ++ "?size=s2000",
          imgAlt := image.name,
          caption := image.name,
          counter := toString (s.gallery.currentImageIndex + 1) ++ " / " ++
            toString s.gallery.images.length,
          prevDisplay := if s.gallery.currentImageIndex = 0 then "none" else "flex",
          nextDisplay :=
            if (s.gallery.currentImageIndex : Int) =
                (s.gallery.images.length : Int) - 1 then "none" else "flex" }

/-- `prevImage()` (lines 332-337): decrements `currentImageIndex` when it
is positive, otherwise does nothing. -/
def prevImage (s : WidgetState) : WidgetState :=
  if 0 < s.gallery.currentImageIndex then
    { s with gallery :=
        { s.gallery with currentImageIndex := s.gallery.currentImageIndex - 1 } }
  else s

/-- `nextImage()` (lines 342-347): increments `currentImageIndex` when it
is below `images.length - 1` (numeric JS comparison, hence the `Int` cast),
otherwise does nothing. -/
def nextImage (s : WidgetState) : WidgetState :=
  if (s.gallery.currentImageIndex : Int) < (s.gallery.images.length : Int) - 1 then
    { s with gallery :=
        { s.gallery with currentImageIndex := s.gallery.currentImageIndex + 1 } }
  else s

/-- `closeLightbox()` (lines 352-363): returns immediately when no
`.tg-lightbox` element exists; otherwise removes the element, detaches the
keydown listener and restores page scroll.  Gallery fields are untouched. -/
def closeLightbox (s : WidgetState) : WidgetState :=
  if ¬ s.dom.lightboxPresent then s
  else
    { gallery := s.gallery,
      dom := { lightboxPresent := false,
               keydownListenerAttached := false,
               bodyOverflowHidden := false } }

/-- One grid item as built by `createImageItem`: thumbnail source, alt text,
and the index captured by its click handler (`openLightbox(index)`). -/
structure GridItem where
  thumbSrc : String
  alt : String
  clickIndex : Nat
deriving Repr, DecidableEq

/-- `createImageItem(image, index)` (lines 114-143). -/
def createImageItem (image : Image) (index : Nat) : GridItem :=
  { thumbSrc := imageProxyBase ++ "/image/" ++ image.id ++ "?size=s800",
    alt := image.name,
    clickIndex := index }

/-- `renderGallery()` (lines 88-109): one grid item per image, built in
list order with `forEach((image, index) => ...)`. -/
def renderGallery (images : List Image) : List GridItem :=
  images.enum.map (fun p => createImageItem p.2 p.1)

/-- Clicking a grid item runs its handler `() => this.openLightbox(index)`
(line 140). -/
def activateItem (s : WidgetState) (item : GridItem) : WidgetState :=
  openLightbox s item.clickIndex

/-- The two lightbox navigation actions. -/
inductive NavAction where
  | next
  | prev
deriving Repr, DecidableEq

/-- The fixed swipe distance threshold (line 273). -/
def swipeThreshold : Nat := 50

/-- `handleSwipe(startX, endX)` (lines 272-285): with
`diff = startX - endX`, when `Math.abs(diff)` exceeds the threshold a
positive difference (finger moved left) navigates to the next image and a
negative one to the previous image; otherwise nothing happens. -/
def handleSwipe (startX endX : Int) : Option NavAction :=
  if swipeThreshold < (startX - endX).natAbs then
    if 0 < startX - endX then some NavAction.next else some NavAction.prev
  else none

/-- What the gallery container shows after construction settles. -/
inductive RenderView where
  | loading
  | emptyView
  | errorView (message : String)
  | gridView (items : List GridItem)
deriving Repr, DecidableEq

/-- The generic user-facing failure message (line 62). -/
def genericFailureMessage : String := "Failed to load gallery. Please try again later."

/-- The missing-configuration message (line 38). -/
def missingFolderMessage : String := "Missing data-folder-id attribute"

/-- `init()` (lines 48-64), as a function of the settled fetch outcome:
any thrown error is caught and collapsed into the generic error view; an
empty list gives the empty view; a non-empty list gives the rendered grid. -/
def init (fetchOutcome : Except FetchError (List Image)) : RenderView :=
  match fetchOutcome with
  | Except.error _ => RenderView.errorView genericFailureMessage
  | Except.ok imgs =>
    if imgs.length = 0 then RenderView.emptyView
    else RenderView.gridView (renderGallery imgs)

/-- JS falsiness of `this.folderId` (`container.dataset.folderId` is
`undefined` when the attribute is absent, and a string otherwise; a string
is falsy exactly when empty). -/
def jsFalsyString (s : Option String) : Bool := (s.getD ("")) = ""

/-- Result of running the constructor: the settled container view and
whether `fetchImages` was ever invoked. -/
structure ConstructResult where
  view : RenderView
  fetchAttempted : Bool
deriving Repr, DecidableEq

/-- The `TattooGallery` constructor (lines 30-43): a falsy folder id
renders the error state and returns before `init()`; otherwise `init()`
runs, which performs the single fetch whose settled outcome is the second
argument. -/
def constructGallery (folderId : Option String)
    (fetchOutcome : Except FetchError (List Image)) : ConstructResult :=
  if jsFalsyString folderId then
    { view := RenderView.errorView missingFolderMessage, fetchAttempted := false }
  else
    { view := init fetchOutcome, fetchAttempted := true }

/-- A two-image gallery, matching the example in the spec. -/
def imgCat : Image := { id := "a", name := "Cat" }

/-- Second demo image. -/
def imgDog : Image := { id := "b", name := "Dog" }

/-- The demo image list `[{id:"a",name:"Cat"}, {id:"b",name:"Dog"}]`. -/
def demoImages : List Image := [imgCat, imgDog]

/-- A state with the lightbox open on the second demo image. -/
def demoOpenState : WidgetState :=
  { gallery := { images := demoImages, currentImageIndex := 1 },
    dom := { lightboxPresent := true,
             keydownListenerAttached := true,
             bodyOverflowHidden := true } }

/-- A state with no lightbox in the document. -/
def demoClosedState : WidgetState :=
  { gallery := { images := demoImages, currentImageIndex := 0 },
    dom := { lightboxPresent := false,
             keydownListenerAttached := false,
             bodyOverflowHidden := false } }

/-- C1: over any image list of length N, with the lightbox invariant
`currentImageIndex < N` in force, `nextImage` is the identity at the last
index and otherwise adds one to the index, while `prevImage` is the
identity at index zero and otherwise subtracts one; neither wraps around. -/
theorem nextImage_prevImage_step (s : WidgetState)
    (h : s.gallery.currentImageIndex < s.gallery.images.length) :
    (s.gallery.currentImageIndex = s.gallery.images.length - 1 → nextImage s = s) ∧
    (s.gallery.currentImageIndex ≠ s.gallery.images.length - 1 →
      (nextImage s).gallery.currentImageIndex = s.gallery.currentImageIndex + 1) ∧
    (s.gallery.currentImageIndex = 0 → prevImage s = s) ∧
    (s.gallery.currentImageIndex ≠ 0 →
      (prevImage s).gallery.currentImageIndex = s.gallery.currentImageIndex - 1) := by
  unfold nextImage prevImage
  refine ⟨?_, ?_, ?_, ?_⟩ <;> intro hi
  · rw [if_neg]
    omega
  · rw [if_pos]
    omega
  · rw [if_neg]
    omega
  · rw [if_pos]
    omega

/-- C1 witness: in the two-image demo state at index 1 (the last index),
`nextImage` is a no-op and `prevImage` moves the index to 0. -/
theorem nextImage_prevImage_step_witness :
    demoOpenState.gallery.currentImageIndex < demoOpenState.gallery.images.length ∧
    nextImage demoOpenState = demoOpenState ∧
    (prevImage demoOpenState).gallery.currentImageIndex = 0 :=
  ⟨by decide,
   (nextImage_prevImage_step demoOpenState (by decide)).1 (by decide),
   (nextImage_prevImage_step demoOpenState (by decide)).2.2.2 (by decide)⟩

/-- C2: the lightbox index invariant `0 ≤ currentImageIndex < images.length`
(the lower bound holds by the `Nat` type) is preserved by `nextImage`,
`prevImage`, and by `openLightbox k` under its precondition `k < images.length`. -/
theorem lightbox_index_invariant (s : WidgetState) (k : Nat)
    (h : s.gallery.currentImageIndex < s.gallery.images.length)
    (hk : k < s.gallery.images.length) :
    (nextImage s).gallery.currentImageIndex < (nextImage s).gallery.images.length ∧
    (prevImage s).gallery.currentImageIndex < (prevImage s).gallery.images.length ∧
    (openLightbox s k).gallery.currentImageIndex <
      (openLightbox s k).gallery.images.length := by
  unfold nextImage prevImage openLightbox
  refine ⟨?_, ?_, ?_⟩
  · split
    · show s.gallery.currentImageIndex + 1 < s.gallery.images.length
      omega
    · exact h
  · split
    · show s.gallery.currentImageIndex - 1 < s.gallery.images.length
      omega
    · exact h
  · simpa using hk

/-- C2 witness: the invariant holds after each operation from the demo
open state with target index 0. -/
theorem lightbox_index_invariant_witness :
    demoOpenState.gallery.currentImageIndex < demoOpenState.gallery.images.length ∧
    (0 : Nat) < demoOpenState.gallery.images.length ∧
    (nextImage demoOpenState).gallery.currentImageIndex <
      (nextImage demoOpenState).gallery.images.length ∧
    (openLightbox demoOpenState 0).gallery.currentImageIndex <
      (openLightbox demoOpenState 0).gallery.images.length :=
  ⟨by decide, by decide,
   (lightbox_index_invariant demoOpenState 0 (by decide) (by decide)).1,
   (lightbox_index_invariant demoOpenState 0 (by decide) (by decide)).2.2⟩

/-- C9: for any valid index k, `closeLightbox` followed by `openLightbox k`
yields a lightbox session whose `currentImageIndex` is k, whatever index the
state held before the close. -/
theorem close_then_open (s : WidgetState) (k : Nat)
    (_hk : k < s.gallery.images.length) :
    (openLightbox (closeLightbox s) k).gallery.currentImageIndex = k ∧
    (openLightbox (closeLightbox s) k).dom.lightboxPresent = true := by
  unfold openLightbox closeLightbox
  constructor
  · split <;> rfl
  · rfl

/-- C9 witness: closing the demo state (which holds index 1) and reopening
at index 0 yields index 0 with the lightbox present. -/
theorem close_then_open_witness :
    (0 : Nat) < demoOpenState.gallery.images.length ∧
    (openLightbox (closeLightbox demoOpenState) 0).gallery.currentImageIndex = 0 ∧
    (openLightbox (closeLightbox demoOpenState) 0).dom.lightboxPresent = true :=
  ⟨by decide,
   (close_then_open demoOpenState 0 (by decide)).1,
   (close_then_open demoOpenState 0 (by decide)).2⟩

/-- C10: when no lightbox element exists in the document, `closeLightbox`
returns the state unchanged (keyboard listener, page scroll setting and all
gallery fields untouched) and `updateLightboxImage` returns immediately
without raising. -/
theorem no_lightbox_noops (s : WidgetState)
    (h : s.dom.lightboxPresent = false) :
    closeLightbox s = s ∧ updateLightboxImage s = UpdateResult.noLightbox := by
  unfold closeLightbox updateLightboxImage
  rw [h]
  simp

/-- C10 witness: both no-ops on the demo state with no lightbox present. -/
theorem no_lightbox_noops_witness :
    demoClosedState.dom.lightboxPresent = false ∧
    closeLightbox demoClosedState = demoClosedState ∧
    updateLightboxImage demoClosedState = UpdateResult.noLightbox :=
  ⟨rfl,
   (no_lightbox_noops demoClosedState rfl).1,
   (no_lightbox_noops demoClosedState rfl).2⟩

/-- C3 (amended) theorem: `fetchImages` fails with a transport error
carrying the status for every non-success response; a success response
whose body is `null` fails with the TypeError thrown at the `data.error`
access; a success response whose `error` field reads as a truthy value
fails with an application error carrying `data.message || 'Unknown error'`;
a success response whose `error` field reads without throwing as an absent
or falsy value is returned unchanged — in particular the ordered (possibly
empty) image list when the body is such a list. -/
theorem fetchImages_spec (r : HttpResponse) :
    (r.ok = false → fetchImages r = Except.error (FetchError.transportError r.status)) ∧
    (r.ok = true → r.body = JsonVal.jnull →
      fetchImages r = Except.error FetchError.typeError) ∧
    (r.ok = true → ∀ ef, r.body.getField ("error") = Except.ok ef →
      jsTruthy ef = true →
      ∃ mf, r.body.getField ("message") = Except.ok mf ∧
        fetchImages r = Except.error (FetchError.applicationError
          (jsOr mf (JsonVal.jstr ("Unknown error"))))) ∧
    (r.ok = true → ∀ ef, r.body.getField ("error") = Except.ok ef →
      jsTruthy ef = false →
      fetchImages r = Except.ok r.body) ∧
    (r.ok = true → ∀ imgs : List Image, r.body = encodeImageList imgs →
      fetchImages r = Except.ok (encodeImageList imgs)) := by
  obtain ⟨st, bd⟩ := r
  refine ⟨?_, ?_, ?_, ?_, ?_⟩ <;> intro h
  · simp [fetchImages, h]
  · intro hnull
    have hnull2 : bd = JsonVal.jnull := hnull
    subst hnull2
    simp [fetchImages, h, JsonVal.getField]
  · intro ef hef htr
    cases bd <;> simp [JsonVal.getField] at hef
    case jbool b =>
      subst hef
      simp [jsTruthy] at htr
    case jnum n =>
      subst hef
      simp [jsTruthy] at htr
    case jstr s2 =>
      subst hef
      simp [jsTruthy] at htr
    case jarr items =>
      subst hef
      simp [jsTruthy] at htr
    case jobj fields =>
      subst hef
      refine ⟨fields.lookup ("message"), by simp [JsonVal.getField], ?_⟩
      simp [fetchImages, h, JsonVal.getField, htr]
  · intro ef hef hfa
    cases bd <;> simp [JsonVal.getField] at hef
    all_goals subst hef
    all_goals simp [fetchImages, h, JsonVal.getField, hfa]
  · intro imgs hb
    have hb2 : bd = encodeImageList imgs := hb
    subst hb2
    have hge : (encodeImageList imgs).getField ("error") = Except.ok none := by
      rw [encodeImageList]
      rfl
    simp [fetchImages, h, hge, jsTruthy]

/-- C3 counterexample: a success-status response whose JSON body contains
an `error` field holding `false` is not rejected with an application error
— `fetchImages` returns the body as data, refuting the claim that every
success body containing an `error` field fails. -/
theorem fetchImages_error_field_counterexample :
    ((JsonVal.jobj [("error", JsonVal.jbool false)]).getField ("error") =
      Except.ok (some (JsonVal.jbool false))) ∧
    HttpResponse.ok
      { status := 200, body := JsonVal.jobj [("error", JsonVal.jbool false)] } = true ∧
    fetchImages
      { status := 200, body := JsonVal.jobj [("error", JsonVal.jbool false)] } =
      Except.ok (JsonVal.jobj [("error", JsonVal.jbool false)]) :=
  ⟨rfl, rfl, rfl⟩

/-- C3 witness: a 404 response fails with `transportError 404`; a 200
response with body `null` fails with the TypeError; a success response with
a truthy `error` field and no message fails with the fallback message; a
success response with a falsy `error` field is returned as data; a success
response carrying the empty image list is returned. -/
theorem fetchImages_spec_witness :
    HttpResponse.ok { status := 404, body := JsonVal.jarr [] } = false ∧
    fetchImages { status := 404, body := JsonVal.jarr [] } =
      Except.error (FetchError.transportError 404) ∧
    fetchImages { status := 200, body := JsonVal.jnull } =
      Except.error FetchError.typeError ∧
    fetchImages { status := 200, body := JsonVal.jobj [("error", JsonVal.jbool true)] } =
      Except.error (FetchError.applicationError (JsonVal.jstr ("Unknown error"))) ∧
    fetchImages { status := 200, body := JsonVal.jobj [("error", JsonVal.jbool false)] } =
      Except.ok (JsonVal.jobj [("error", JsonVal.jbool false)]) ∧
    fetchImages { status := 200, body := encodeImageList [] } =
      Except.ok (encodeImageList []) := by
  refine ⟨rfl, ?_, ?_, ?_, ?_, ?_⟩
  · exact (fetchImages_spec { status := 404, body := JsonVal.jarr [] }).1 rfl
  · exact (fetchImages_spec { status := 200, body := JsonVal.jnull }).2.1 rfl rfl
  · obtain ⟨mf, hmf, hres⟩ := (fetchImages_spec
      { status := 200, body := JsonVal.jobj [("error", JsonVal.jbool true)] }).2.2.1
        rfl (some (JsonVal.jbool true)) rfl rfl
    have h2 : (Except.ok (none : Option JsonVal) : Except Unit (Option JsonVal)) =
        Except.ok mf := hmf
    rw [← Except.ok.inj h2] at hres
    exact hres
  · exact (fetchImages_spec
      { status := 200, body := JsonVal.jobj [("error", JsonVal.jbool false)] }).2.2.2.1
        rfl (some (JsonVal.jbool false)) rfl rfl
  · exact (fetchImages_spec { status := 200, body := encodeImageList [] }).2.2.2.2
      rfl [] rfl

/-- Helper: the boundary `display` expression equals `'none'` exactly when
its condition holds. -/
theorem display_none_iff (c : Prop) [Decidable c] :
    ((if c then "none" else "flex") = "none") ↔ c := by
  by_cases hc : c
  · simp [hc]
  · simp only [if_neg hc, hc, iff_false]
    decide

/-- C4: in any rendered lightbox state (lightbox present, index within the
image list), the previous affordance is hidden (`display:'none'`) iff the
index is 0 and the next affordance is hidden iff the index is `N - 1`. -/
theorem nav_affordance_visibility (s : WidgetState)
    (hp : s.dom.lightboxPresent = true)
    (h : s.gallery.currentImageIndex < s.gallery.images.length) :
    ∃ r, updateLightboxImage s = UpdateResult.rendered r ∧
      (r.prevDisplay = "none" ↔ s.gallery.currentImageIndex = 0) ∧
      (r.nextDisplay = "none" ↔
        s.gallery.currentImageIndex = s.gallery.images.length - 1) := by
  unfold updateLightboxImage
  rw [hp, List.get?_eq_get h]
  refine ⟨_, rfl, ?_, ?_⟩
  · exact display_none_iff _
  · rw [display_none_iff]
    omega

/-- C4 witness: in the demo open state at the last index, the previous
affordance is shown and the next affordance is hidden. -/
theorem nav_affordance_visibility_witness :
    demoOpenState.dom.lightboxPresent = true ∧
    demoOpenState.gallery.currentImageIndex < demoOpenState.gallery.images.length ∧
    ∃ r, updateLightboxImage demoOpenState = UpdateResult.rendered r ∧
      (r.prevDisplay = "none" ↔ demoOpenState.gallery.currentImageIndex = 0) ∧
      (r.nextDisplay = "none" ↔
        demoOpenState.gallery.currentImageIndex =
          demoOpenState.gallery.images.length - 1) :=
  ⟨rfl, by decide, nav_affordance_visibility demoOpenState rfl (by decide)⟩

/-- C8: a swipe whose horizontal distance exceeds the 50px threshold
navigates — leftward (start beyond end) to the next image, rightward to the
previous image, each exactly once; a swipe at or below the threshold, in
particular any purely vertical gesture (zero horizontal distance), invokes
neither navigation. -/
theorem handleSwipe_navigation (startX endX : Int) :
    (50 < startX - endX → handleSwipe startX endX = some NavAction.next) ∧
    (50 < endX - startX → handleSwipe startX endX = some NavAction.prev) ∧
    ((startX - endX).natAbs ≤ 50 → handleSwipe startX endX = none) := by
  unfold handleSwipe swipeThreshold
  refine ⟨?_, ?_, ?_⟩ <;> intro h
  · split
    · split
      · rfl
      · omega
    · omega
  · split
    · split
      · omega
      · rfl
    · omega
  · split
    · omega
    · rfl

/-- C8 witness: a 120px leftward swipe goes next, a 120px rightward swipe
goes previous, and a 30px swipe does nothing. -/
theorem handleSwipe_navigation_witness :
    (50 : Int) < 120 - 0 ∧
    handleSwipe 120 0 = some NavAction.next ∧
    handleSwipe 0 120 = some NavAction.prev ∧
    handleSwipe 30 0 = none :=
  ⟨by decide,
   (handleSwipe_navigation 120 0).1 (by decide),
   (handleSwipe_navigation 0 120).2.1 (by decide),
   (handleSwipe_navigation 30 0).2.2 (by decide)⟩

/-- Helper: the k-th grid item is built from the k-th image with index k. -/
theorem renderGallery_get (imgs : List Image) (k : Nat) (hk : k < imgs.length) :
    (renderGallery imgs).get? k = some (createImageItem (imgs.get ⟨k, hk⟩) k) := by
  unfold renderGallery
  simp [List.get?_eq_getElem?, List.getElem?_enum, List.getElem?_eq_getElem hk,
    List.get_eq_getElem]

/-- Helper: rendering the lightbox right after `openLightbox k` at a valid
index shows the k-th image, its caption, and the counter `k+1 / N`. -/
theorem updateLightboxImage_open (s : WidgetState) (k : Nat)
    (hk : k < s.gallery.images.length) :
    updateLightboxImage (openLightbox s k) =
      UpdateResult.rendered
        { imgSrc := imageProxyBase ++ "/image/" ++ (s.gallery.images.get ⟨k, hk⟩).id ++
            "?size=s2000",
          imgAlt := (s.gallery.images.get ⟨k, hk⟩).name,
          caption := (s.gallery.images.get ⟨k, hk⟩).name,
          counter := toString (k + 1) ++ " / " ++ toString s.gallery.images.length,
          prevDisplay := if k = 0 then "none" else "flex",
          nextDisplay :=
            if (k : Int) = (s.gallery.images.length : Int) - 1
            then "none" else "flex" } := by
  show (if ¬ true then UpdateResult.noLightbox else _) = _
  rw [if_neg (by simp)]
  show (match s.gallery.images.get? k with
        | none => UpdateResult.typeError
        | some image => _) = _
  rw [List.get?_eq_get hk]
  simp [openLightbox]

/-- C5: for a fetched list of N ≥ 1 images, the grid has exactly N items in
fetch order, and activating item k opens the lightbox at index k, showing
that image's caption and the counter text `k+1 / N`. -/
theorem renderGallery_grid_and_click (imgs : List Image) (s : WidgetState)
    (hs : s.gallery.images = imgs) (k : Nat) (hk : k < imgs.length) :
    (renderGallery imgs).length = imgs.length ∧
    ∃ item, (renderGallery imgs).get? k = some item ∧
      item = createImageItem (imgs.get ⟨k, hk⟩) k ∧
      (activateItem s item).gallery.currentImageIndex = k ∧
      ∃ r, updateLightboxImage (activateItem s item) = UpdateResult.rendered r ∧
        r.caption = (imgs.get ⟨k, hk⟩).name ∧
        r.counter = toString (k + 1) ++ " / " ++ toString imgs.length := by
  subst hs
  refine ⟨by simp [renderGallery], createImageItem (s.gallery.images.get ⟨k, hk⟩) k,
    renderGallery_get _ _ hk, rfl, rfl, ?_⟩
  exact ⟨_, updateLightboxImage_open s k hk, rfl, rfl⟩

/-- C5 witness: over the demo list `[Cat, Dog]`, activating item 1 opens
the lightbox at index 1 showing caption `Dog` and counter `2 / 2`. -/
theorem renderGallery_grid_and_click_witness :
    demoClosedState.gallery.images = demoImages ∧ 1 < demoImages.length ∧
    ((renderGallery demoImages).length = demoImages.length ∧
    ∃ item, (renderGallery demoImages).get? 1 = some item ∧
      item = createImageItem (demoImages.get ⟨1, by decide⟩) 1 ∧
      (activateItem demoClosedState item).gallery.currentImageIndex = 1 ∧
      ∃ r, updateLightboxImage (activateItem demoClosedState item) =
          UpdateResult.rendered r ∧
        r.caption = (demoImages.get ⟨1, by decide⟩).name ∧
        r.counter = toString (1 + 1) ++ " / " ++ toString demoImages.length) :=
  ⟨rfl, by decide,
   renderGallery_grid_and_click demoImages demoClosedState rfl 1 (by decide)⟩

/-- C6: a container with no folder-id attribute renders the
missing-configuration error immediately and never attempts a fetch,
whatever the network would have answered. -/
theorem missing_folder_id_no_fetch (outcome : Except FetchError (List Image)) :
    constructGallery none outcome =
      { view := RenderView.errorView missingFolderMessage,
        fetchAttempted := false } := rfl

/-- C7: `init` renders the empty state on an empty fetched list, collapses
every fetch failure into the one generic error message (so the view does
not depend on the specific cause), and renders the grid on a non-empty
list. -/
theorem init_branches (e : FetchError) (imgs : List Image) (hne : imgs ≠ []) :
    init (Except.ok []) = RenderView.emptyView ∧
    init (Except.error e) = RenderView.errorView genericFailureMessage ∧
    (∀ e2 : FetchError, init (Except.error e) = init (Except.error e2)) ∧
    init (Except.ok imgs) = RenderView.gridView (renderGallery imgs) := by
  refine ⟨rfl, rfl, fun _ => rfl, ?_⟩
  show (if imgs.length = 0 then RenderView.emptyView
        else RenderView.gridView (renderGallery imgs)) =
    RenderView.gridView (renderGallery imgs)
  rw [if_neg]
  simpa using hne

/-- C7 witness: the empty list yields the empty view; a transport failure
and an application failure yield the same generic error view; the demo
list yields the rendered grid. -/
theorem init_branches_witness :
    demoImages ≠ [] ∧
    init (Except.ok []) = RenderView.emptyView ∧
    init (Except.error (FetchError.transportError 500)) =
      RenderView.errorView genericFailureMessage ∧
    init (Except.error (FetchError.transportError 500)) =
      init (Except.error (FetchError.applicationError (JsonVal.jstr ("x")))) ∧
    init (Except.ok demoImages) = RenderView.gridView (renderGallery demoImages) :=
  ⟨by decide,
   (init_branches (FetchError.transportError 500) demoImages (by decide)).1,
   (init_branches (FetchError.transportError 500) demoImages (by decide)).2.1,
   (init_branches (FetchError.transportError 500) demoImages (by decide)).2.2.1 _,
   (init_branches (FetchError.transportError 500) demoImages (by decide)).2.2.2⟩
